import Mathlib

/-!
Verification of the runrightfast-elasticsearch entity-database layer.

Shallow embedding of `src/lib/entity-database.js` (the full variant) and,
where a claim refers to it, of the earlier variant in `src/unnamed/part_001`.

Modelling conventions:
* JavaScript objects whose fields may be `undefined` become structures with
  `Option` fields; `undefined` is `none`.
* Promise outcomes become the `Outcome` type (`resolved` / `rejected`); an
  operation body (the part that runs before any store round trip) becomes an
  `OpStep` value: it either rejects, resolves without issuing a request, or
  issues exactly one store request.  The callback wired to the store response
  at each call site becomes a separate `...Respond : ESResult → Outcome`
  function.
* `JSON.stringify` becomes `Json.stringify` over a small JSON AST; object
  fields that are `undefined` in JavaScript are dropped before serialization,
  matching `JSON.stringify`.
* The caller-supplied entity constructor (`options.entityConstructor`) is a
  parameter of each modelled operation (`ctor`); where the source wraps the
  construction in try/catch it is modelled as `Except String Entity`.
* JavaScript truthiness is modelled explicitly where the source relies on it
  (`truthyStr`, and the `≠ 0` test on validated version numbers).
-/

/-- A primitive JavaScript value, used for ill-typed argument modelling
(id arrays may contain non-strings, `getEntity` may receive a non-string). -/
inductive JsVal where
  | str (s : String)
  | num (n : Int)
  | boolV (b : Bool)
  | nullV
  | undef
  | objV
deriving DecidableEq, Repr

/-- Returns `true` exactly on string values. -/
def JsVal.isStr : JsVal → Bool
  | .str _ => true
  | _ => false

/-- A JSON document, as produced by `JSON.stringify` on the values this layer
serializes (bulk operation headers and entity bodies). -/
inductive Json where
  | str (s : String)
  | num (n : Int)
  | bool (b : Bool)
  | null
  | arr (xs : List Json)
  | obj (fields : List (String × Json))
deriving Repr

/-- JSON string escaping as performed by `JSON.stringify`. -/
def jsonEscapeChar (c : Char) : String :=
  if c = '"' then "\\\""
  else if c = '\\' then "\\\\"
  else if c = '\n' then "\\n"
  else if c = '\t' then "\\t"
  else if c = '\r' then "\\r"
  else String.singleton c

/-- Escape a string for inclusion in a JSON document. -/
def jsonEscape (s : String) : String :=
  String.join (s.toList.map jsonEscapeChar)

/-- A quoted JSON string literal. -/
def jsonQuote (s : String) : String :=
  "\"" ++ jsonEscape s ++ "\""

mutual

/-- Serialize a JSON document the way `JSON.stringify` does (no whitespace). -/
def Json.stringify : Json → String
  | .str s => jsonQuote s
  | .num n => toString n
  | .bool b => if b then "true" else "false"
  | .null => "null"
  | .arr xs => "[" ++ Json.stringifyArr xs ++ "]"
  | .obj fs => "\x7b" ++ Json.stringifyObj fs ++ "\x7d"

/-- Comma-separated serialization of JSON array elements. -/
def Json.stringifyArr : List Json → String
  | [] => ""
  | [x] => Json.stringify x
  | x :: y :: xs => Json.stringify x ++ "," ++ Json.stringifyArr (y :: xs)

/-- Comma-separated serialization of JSON object fields. -/
def Json.stringifyObj : List (String × Json) → String
  | [] => ""
  | [kv] => jsonQuote kv.1 ++ ":" ++ Json.stringify kv.2
  | kv :: kv2 :: fs => jsonQuote kv.1 ++ ":" ++ Json.stringify kv.2 ++ "," ++ Json.stringifyObj (kv2 :: fs)

end

/-- Field lookup inside a JSON object (`none` on non-objects / missing keys). -/
def jsonObjGet (j : Json) (key : String) : Option Json :=
  match j with
  | .obj fs => fs.lookup key
  | _ => none

/-- Extract a JSON string value. -/
def jsonAsStr : Json → Option String
  | .str s => some s
  | _ => none

/-- JavaScript truthiness of an optional string (`undefined` and `""` are
falsy). -/
def truthyStr : Option String → Bool
  | some s => s ≠ ""
  | none => false

/-- Models `a || b` on optional strings, with JavaScript truthiness on `a`. -/
def jsOrStr (a b : Option String) : Option String :=
  if truthyStr a then a else b

/-- A raw candidate entity passed by the caller.  The layer itself only ever
reads its `id` property (`entity.id` in `createEntities`); everything else is
consumed opaquely by the caller-supplied constructor. -/
structure RawEntity where
  id : Option String
deriving DecidableEq, Repr

/-- A constructed entity instance, as produced by the caller-supplied
`entityConstructor`.  The layer reads `id`, `_entityType`, and calls
`updated(updatedBy)`; the remaining payload is opaque (`extra`). -/
structure Entity where
  id : String
  _entityType : Option String
  createdOn : Nat
  updatedOn : Nat
  updatedBy : Option String
  extra : List (String × Json)
deriving Repr

/-- Models `entity.updated(updatedBy)` from runrightfast-commons: stamps `updatedOn`
with the current time and records `updatedBy`. -/
def Entity.updated (e : Entity) (updatedBy : Option String) (now : Nat) : Entity :=
  { e with updatedOn := now, updatedBy := updatedBy }

/-- Models `JSON.stringify(newEntity)`: the canonical serialization of a constructed
entity; `undefined` fields are dropped, as `JSON.stringify` does. -/
def entityToJson (e : Entity) : Json :=
  .obj ([("id", .str e.id)]
    ++ (match e._entityType with | some t => [("_entityType", .str t)] | none => [])
    ++ [("createdOn", .num e.createdOn), ("updatedOn", .num e.updatedOn)]
    ++ (match e.updatedBy with | some u => [("updatedBy", .str u)] | none => [])
    ++ e.extra)

/-- The `EntityDatabase` handle: `this.index` and `this.type` (lower-cased at
construction; the full variant requires `type`, the part_001 variant leaves it
optional, so it is `Option` here). -/
structure EntityDatabase where
  index : String
  type : Option String
deriving DecidableEq, Repr

/-- An elasticsearch response body, restricted to the fields this layer
inspects: `error`, `status`, `code`, `exists` (named `exists_` here because
`exists` is reserved in Lean). -/
structure ESResult where
  error : Option String
  status : Option Nat
  code : Option Nat
  exists_ : Option Bool
deriving DecidableEq, Repr

/-- An error code attached to a rejection: numeric (store status) or the
string code `INVALID_OBJ_SCHEMA`. -/
inductive ErrCode where
  | num (n : Nat)
  | str (s : String)
deriving DecidableEq, Repr

/-- A rejection value: `message`, optional `code`, and optional `info`
(the raw store response attached by `getEntity` on 404). -/
structure ErrV where
  message : String
  code : Option ErrCode
  info : Option ESResult
deriving DecidableEq, Repr

/-- The settled state of an operation promise. -/
inductive Outcome where
  | resolved (r : ESResult)
  | rejected (e : ErrV)
deriving DecidableEq, Repr

/-- What an operation body does before any store response arrives: reject the
promise, resolve it without any store round trip (`resolve v`, where `none`
models `resolve()` with no value), or issue exactly one store request of type
`ρ`. -/
inductive OpStep (ρ : Type) where
  | reject (e : ErrV)
  | resolve (v : Option ESResult)
  | request (r : ρ)
deriving DecidableEq, Repr

/-- The request issued by a step, if any. -/
def OpStep.requestOf : OpStep ρ → Option ρ
  | .request r => some r
  | _ => none

/-- Returns `true` when the step rejects the promise before any store request. -/
def OpStep.isReject : OpStep ρ → Bool
  | .reject _ => true
  | _ => false

/-- Embeds `checkElasticsearchResult(resolve, reject, result)`: on a truthy
`result.error` reject with `message = result.error` and `code = result.status`,
otherwise resolve with the raw result. -/
def checkElasticsearchResult (result : ESResult) : Outcome :=
  match result.error with
  | some msg => if msg = "" then .resolved result
      else .rejected { message := msg, code := result.status.map .num, info := none }
  | none => .resolved result

/-- A single-document write request issued through `ejs.Document(...).doIndex`:
the document coordinates, the optional `opType` (`"create"` for create-only
writes), the optional `refresh` flag, the serialized source entity, and the
optional `version` condition. -/
structure DocWrite where
  index : String
  type : Option String
  id : String
  opType : Option String
  refresh : Option Bool
  source : Entity
  version : Option Nat
deriving Repr

/-- A single-document fetch issued through `ejs.Document(...).doGet`. -/
structure DocGet where
  index : String
  type : Option String
  id : String
deriving DecidableEq, Repr

/-- A single-document delete issued through `ejs.Document(...).doDelete`. -/
structure DocDelete where
  index : String
  type : Option String
  id : String
  refresh : Bool
deriving DecidableEq, Repr

/-- A raw HTTP POST issued through `ejs.client.post(path, body, ...)`
(used for the bulk and multi-get APIs, which elastic.js does not wrap). -/
structure ClientPost where
  path : String
  body : String
deriving DecidableEq, Repr

/-- Concatenation of an optional string onto a string, as JavaScript
renders `undefined` in string concatenation. -/
def jsConcatStr : Option String → String
  | some s => s
  | none => "undefined"

/-- Embeds `EntityDatabase.prototype.createEntity(entity, refresh)` from
`src/lib/entity-database.js`: rejects a non-object entity, rejects a
non-boolean refresh flag (modelled as already well typed `Option Bool`),
constructs the entity (rejecting with code `INVALID_OBJ_SCHEMA` on
constructor failure), then issues a create-only (opType set to create) write of
the constructed entity under the configured index and type. -/
def createEntity (db : EntityDatabase) (ctor : RawEntity → Except String Entity)
    (entity : Option RawEntity) (refresh : Option Bool) : OpStep DocWrite :=
  match entity with
  | none => .reject { message := "entity is required", code := none, info := none }
  | some raw =>
    match ctor raw with
    | .error m => .reject { message := m, code := some (.str "INVALID_OBJ_SCHEMA"), info := none }
    | .ok newEntity =>
      .request { index := db.index, type := db.type, id := newEntity.id,
                 opType := some "create", refresh := some (refresh.getD false),
                 source := newEntity, version := none }

/-- The response callback `createEntity` wires to `doIndex`. -/
def createEntityRespond : ESResult → Outcome := checkElasticsearchResult

/-- What a `createEntity` call of the `src/unnamed/part_001` variant does:
because the missing-type rejection is not followed by a `return`, the body
can both reject the promise and still issue the store request, so the model
records both effects. -/
structure CreateEntityV1Run where
  rejected : Option ErrV
  issued : Option DocWrite
deriving Repr

/-- Embeds `EntityDatabase.prototype.createEntity(entity)` from
`src/unnamed/part_001`: resolves the document type as
`newEntity._entityType || self.type`; if that is falsy it calls `reject`,
but — unlike every other rejection path in the file — does not `return`, so
the `Document` is still built (with an undefined type) and `doIndex` is still
invoked. -/
def createEntityV1 (db : EntityDatabase) (ctor : RawEntity → Except String Entity)
    (entity : Option RawEntity) : CreateEntityV1Run :=
  match entity with
  | none =>
    { rejected := some { message := "entity is required", code := none, info := none },
      issued := none }
  | some raw =>
    match ctor raw with
    | .error m =>
      { rejected := some { message := m, code := some (.str "INVALID_OBJ_SCHEMA"), info := none },
        issued := none }
    | .ok newEntity =>
      let type := jsOrStr newEntity._entityType db.type
      { rejected :=
          if truthyStr type then none
          else some { message := "type is required - it either needs to configured on the EntityDatabase via the type option or specified on the entity via _entityType",
                      code := none, info := none },
        issued := some { index := db.index, type := type, id := newEntity.id,
                         opType := some "create", refresh := none,
                         source := newEntity, version := none } }

/-- Embeds `EntityDatabase.prototype.getEntity(id)`: a non-string id is rejected
before any store request; otherwise a fetch of the document under the
configured index and type is issued. -/
def getEntity (db : EntityDatabase) (id : JsVal) : OpStep DocGet :=
  match id with
  | .str s => .request { index := db.index, type := db.type, id := s }
  | _ => .reject { message := "id is required and must be a String", code := none, info := none }

/-- The callback `getEntity` wires to `doGet`: a truthy `result.exists`
resolves; a boolean (hence `false`) `result.exists` rejects with code 404
carrying the raw result as `info`; otherwise a truthy `result.error` rejects
with `code = result.code`; otherwise the raw result resolves. -/
def getEntityRespond (result : ESResult) : Outcome :=
  if result.exists_ = some true then .resolved result
  else
    match result.exists_ with
    | some _ =>
      .rejected { message := "Entity does not exist", code := some (.num 404), info := some result }
    | none =>
      match result.error with
      | some m =>
        if m = "" then .resolved result
        else .rejected { message := m, code := result.code.map .num, info := none }
      | none => .resolved result

/-- The `setEntity` parameter bundle, `{entity, version, updatedBy}`.
Fields carry their schema-declared types; `version` keeps its numeric value
so that the `min(1)` rule and the later `if (params.version)` truthiness test
are both modelled. -/
structure SetEntityParams where
  entity : Option RawEntity
  version : Option Nat
  updatedBy : Option String
deriving DecidableEq, Repr

/-- Embeds `joi.validate(params, updateEntityParamsSchema)`: `entity` is a required
object, `version` (when present) is a number of at least 1. -/
def validateUpdateEntityParams (params : SetEntityParams) : Option ErrV :=
  if params.entity.isNone then
    some { message := "entity is required", code := none, info := none }
  else
    match params.version with
    | some v =>
      if v < 1 then some { message := "version must be at least 1", code := none, info := none }
      else none
    | none => none

/-- Embeds `EntityDatabase.prototype.setEntity(params)` from
`src/lib/entity-database.js`: validates the parameter bundle, constructs the
entity (code `INVALID_OBJ_SCHEMA` on failure), stamps it via
`updated(params.updatedBy)`, resolves the type as
`newEntity._entityType || self.type`, and issues a plain `doIndex` write
(no `opType`, hence index/upsert semantics) whose `version` condition is set
exactly when `params.version` is truthy. -/
def setEntity (db : EntityDatabase) (ctor : RawEntity → Except String Entity)
    (now : Nat) (params : SetEntityParams) : OpStep DocWrite :=
  match validateUpdateEntityParams params with
  | some err => .reject err
  | none =>
    match params.entity with
    | none => .reject { message := "entity is required", code := none, info := none }
    | some raw =>
      match ctor raw with
      | .error m => .reject { message := m, code := some (.str "INVALID_OBJ_SCHEMA"), info := none }
      | .ok ent =>
        let newEntity := ent.updated params.updatedBy now
        let type := jsOrStr newEntity._entityType db.type
        .request { index := db.index, type := type, id := newEntity.id,
                   opType := none, refresh := none, source := newEntity,
                   version := match params.version with
                     | some v => if v ≠ 0 then some v else none
                     | none => none }

/-- The response callback `setEntity` wires to `doIndex`. -/
def setEntityRespond : ESResult → Outcome := checkElasticsearchResult

/-- Embeds `EntityDatabase.prototype.deleteEntity(id, refresh)`: rejects a
non-string id and a non-boolean refresh (modelled well typed), then issues a
delete with `refresh = !!refresh`. -/
def deleteEntity (db : EntityDatabase) (id : JsVal) (refresh : Option Bool) : OpStep DocDelete :=
  match id with
  | .str s => .request { index := db.index, type := db.type, id := s, refresh := refresh.getD false }
  | _ => .reject { message := "id is required and must be a String", code := none, info := none }

/-- The success callback `deleteEntity` passes to `doDelete` is `resolve`
itself: the raw store response resolves the promise unconditionally. -/
def deleteEntityRespond (result : ESResult) : Outcome := .resolved result

/-- A possibly ill-typed `ids` argument: `undefined`, a non-array value, or
an array of JavaScript values. -/
inductive JsArg where
  | undef
  | nonArray
  | arr (xs : List JsVal)
deriving DecidableEq, Repr

/-- Extract the strings of a `JsVal` list; `none` when any element is not a
string. -/
def asStrings : List JsVal → Option (List String)
  | [] => some []
  | .str s :: xs => (asStrings xs).map (s :: ·)
  | _ :: _ => none

/-- Embeds `validateIdsArray(ids)` / the joi schema
`ids : Array().required().includes(String())`: fails when `ids` is absent,
not an array, or contains a non-string element.  An empty array satisfies
the schema (joi 0.x has no non-empty rule here). -/
def validateIdsArray (ids : JsArg) : Option ErrV :=
  match ids with
  | .undef => some { message := "ids is required", code := none, info := none }
  | .nonArray => some { message := "ids must be an Array", code := none, info := none }
  | .arr xs =>
    if (asStrings xs).isNone then
      some { message := "ids must include only Strings", code := none, info := none }
    else none

/-- The bulk-operation header line
`{"index":{"_index":..,"_type":..,"_id":..}}` built by `createEntities`;
`_id` is the raw input entity's `id` and is dropped by `JSON.stringify` when
that is `undefined`. -/
def bulkIndexHeader (index : String) (type : Option String) (id : Option String) : Json :=
  .obj [("index", .obj ([("_index", .str index)]
    ++ (match type with | some t => [("_type", .str t)] | none => [])
    ++ (match id with | some s => [("_id", .str s)] | none => [])))]

/-- The header line of the bulk item for raw entity `e`. -/
def createEntityHeaderLine (db : EntityDatabase) (e : RawEntity) : String :=
  (bulkIndexHeader db.index db.type e.id).stringify

/-- The body line of the bulk item for raw entity `e`: the serialized
constructed entity. -/
def createEntityBodyLine (ctor : RawEntity → Entity) (e : RawEntity) : String :=
  (entityToJson (ctor e)).stringify

/-- The bulk payload assembled by `createEntities` via
`lodash.foldl` over the entities with an empty initial accumulator: for each entity, the serialized header
(keyed by the raw `entity.id`), a newline, the serialized constructed entity,
and a newline. -/
def createEntitiesPayload (db : EntityDatabase) (ctor : RawEntity → Entity)
    (entities : List RawEntity) : String :=
  entities.foldl (fun payload entity =>
    payload ++ createEntityHeaderLine db entity ++ "\n"
      ++ createEntityBodyLine ctor entity ++ "\n") ""

/-- The same payload, viewed as its list of lines: two lines per entity, in
input order. -/
def createEntitiesLines (db : EntityDatabase) (ctor : RawEntity → Entity)
    (entities : List RawEntity) : List String :=
  (entities.map (fun e => [createEntityHeaderLine db e, createEntityBodyLine ctor e])).flatten

/-- Embeds `EntityDatabase.prototype.createEntities(entities)`: a non-array rejects;
an empty array resolves with no value before any request; otherwise the bulk
payload is POSTed to `/<index>/<type>/_bulk` in a single request.  The
constructor is total here because the source performs `new self.Entity(entity)`
inside the fold with no try/catch. -/
def createEntities (db : EntityDatabase) (ctor : RawEntity → Entity)
    (entities : Option (List RawEntity)) : OpStep ClientPost :=
  match entities with
  | none => .reject { message := "entities is required to be an Array", code := none, info := none }
  | some [] => .resolve none
  | some es =>
    .request { path := "/" ++ db.index ++ "/" ++ jsConcatStr db.type ++ "/_bulk",
               body := createEntitiesPayload db ctor es }

/-- The success callback `createEntities` passes to `client.post` is
`resolve` itself. -/
def createEntitiesRespond (result : ESResult) : Outcome := .resolved result

/-- Embeds `EntityDatabase.prototype.getEntities(ids)`: validates the id array
(rejecting the thrown joi error), then POSTs `{"ids": ids}` to
`/<index>/<type>/_mget`. -/
def getEntities (db : EntityDatabase) (ids : JsArg) : OpStep ClientPost :=
  match validateIdsArray ids with
  | some err => .reject err
  | none =>
    match ids with
    | .arr xs =>
      match asStrings xs with
      | some ss =>
        .request { path := "/" ++ db.index ++ "/" ++ jsConcatStr db.type ++ "/_mget",
                   body := (Json.obj [("ids", .arr (ss.map .str))]).stringify }
      | none => .reject { message := "ids must include only Strings", code := none, info := none }
    | _ => .reject { message := "ids is required", code := none, info := none }

/-- The success callback `getEntities` passes to `client.post` is `resolve`
itself. -/
def getEntitiesRespond (result : ESResult) : Outcome := .resolved result

/-- The bulk delete header line `{"delete":{"_index":..,"_type":..,"_id":..}}`. -/
def bulkDeleteHeader (index : String) (type : Option String) (id : String) : Json :=
  .obj [("delete", .obj ([("_index", .str index)]
    ++ (match type with | some t => [("_type", .str t)] | none => [])
    ++ [("_id", .str id)]))]

/-- The single line of the bulk item for deleted id `id`. -/
def deleteEntityLine (db : EntityDatabase) (id : String) : String :=
  (bulkDeleteHeader db.index db.type id).stringify

/-- The bulk payload assembled by `deleteEntities`: one newline-terminated
header line per id, no body lines. -/
def deleteEntitiesPayload (db : EntityDatabase) (ids : List String) : String :=
  ids.foldl (fun payload id => payload ++ deleteEntityLine db id ++ "\n") ""

/-- Embeds `EntityDatabase.prototype.deleteEntities(ids)`: a non-array (or absent)
argument rejects; an empty array resolves with no value before validation and
before any request; otherwise the id array is validated (the thrown joi error
rejects the promise) and the bulk payload is POSTed to
`/<index>/<type>/_bulk`. -/
def deleteEntities (db : EntityDatabase) (ids : JsArg) : OpStep ClientPost :=
  match ids with
  | .undef => .reject { message := "ids is required to be an Array", code := none, info := none }
  | .nonArray => .reject { message := "ids is required to be an Array", code := none, info := none }
  | .arr [] => .resolve none
  | .arr xs =>
    match asStrings xs with
    | none => .reject { message := "ids must include only Strings", code := none, info := none }
    | some ss =>
      .request { path := "/" ++ db.index ++ "/" ++ jsConcatStr db.type ++ "/_bulk",
                 body := deleteEntitiesPayload db ss }

/-- The success callback `deleteEntities` passes to `client.post` is
`resolve` itself. -/
def deleteEntitiesRespond (result : ESResult) : Outcome := .resolved result

/-- A `sort` parameter object: `{field, descending}`. -/
structure SortParam where
  field : String
  descending : Option Bool
deriving DecidableEq, Repr

/-- The common search parameters validated by both search schemas:
`timeout`, `returnFields`, `version`, `from`, `pageSize`, `sort`
(`from` is reserved in Lean, hence `from_`). -/
structure SearchParamsBase where
  timeout : Option Nat
  returnFields : Option (List String)
  version : Option Bool
  from_ : Option Nat
  pageSize : Option Nat
  sort : Option SortParam
deriving DecidableEq, Repr

/-- The `range` parameter object: `{from, to, includeLower, includeUpper}`,
every field optional. -/
structure RangeParams where
  from_ : Option JsVal
  to_ : Option JsVal
  includeLower : Option Bool
  includeUpper : Option Bool
deriving DecidableEq, Repr

/-- The `findByField` parameter object: the common search parameters plus the
required `field` (kept optional here so the schema check is modelled) and the
mutually exclusive `value` / `range`. -/
structure FindByFieldParams extends SearchParamsBase where
  field : Option String
  range : Option RangeParams
  value : Option JsVal
deriving DecidableEq, Repr

/-- An `ejs.RangeFilter`: the target field plus the bounds and inclusivity
flags that were explicitly set on it. -/
structure RangeFilter where
  field : Option String
  from_ : Option JsVal
  to_ : Option JsVal
  includeLower : Option Bool
  includeUpper : Option Bool
deriving DecidableEq, Repr

/-- The effective lower-edge inclusivity of a range filter: elasticsearch
defaults `include_lower` to true when it is not set (source doc comment:
"Should the first from (if set) be inclusive or not. Defaults to true"). -/
def RangeFilter.effectiveIncludeLower (f : RangeFilter) : Bool :=
  f.includeLower.getD true

/-- The effective upper-edge inclusivity of a range filter: elasticsearch
defaults `include_upper` to true when it is not set. -/
def RangeFilter.effectiveIncludeUpper (f : RangeFilter) : Bool :=
  f.includeUpper.getD true

/-- A search filter: an exact-match `TermFilter` or a `RangeFilter`. -/
inductive FilterT where
  | term (field : Option String) (value : JsVal)
  | range (f : RangeFilter)
deriving DecidableEq, Repr

/-- A search query: the only query this layer builds is `MatchAllQuery`. -/
inductive QueryT where
  | matchAll
deriving DecidableEq, Repr

/-- An `ejs.Request` as configured by this layer: index/type scope, the
settings copied from the search parameters, and the query/filter installed
by the individual operations. -/
structure SearchReq where
  indices : String
  types : Option String
  sort : Option (String × String)
  timeout : Option Nat
  fields : Option (List String)
  version : Option Bool
  from_ : Option Nat
  size : Option Nat
  query : Option QueryT
  filter : Option FilterT
deriving DecidableEq, Repr

/-- Embeds `getSortOrder(descending)`. -/
def getSortOrder (descending : Bool) : String :=
  if descending then "desc" else "asc"

/-- Embeds `EntityDatabase.prototype.request()`: an `ejs.Request` scoped to the
configured index and type, with nothing else set. -/
def emptyRequest (db : EntityDatabase) : SearchReq :=
  { indices := db.index, types := db.type, sort := none, timeout := none,
    fields := none, version := none, from_ := none, size := none,
    query := none, filter := none }

/-- The request-building part of
`EntityDatabase.prototype.newSearchRequest(searchParams, schema)`: each
setting is applied exactly when it is defined; `sort.descending` is read with
JavaScript truthiness (undefined is falsy, hence ascending). -/
def newSearchRequest (db : EntityDatabase) (searchParams : SearchParamsBase) : SearchReq :=
  { emptyRequest db with
    sort := searchParams.sort.map (fun s => (s.field, getSortOrder (s.descending.getD false))),
    timeout := searchParams.timeout,
    fields := searchParams.returnFields,
    version := searchParams.version,
    from_ := searchParams.from_,
    size := searchParams.pageSize }

/-- Embeds `EntityDatabase.prototype.newRangeFilter(params)`: an `ejs.RangeFilter`
on `params.field`; when `params.range` is defined, each of
`from`/`to`/`includeLower`/`includeUpper` is copied onto the filter exactly
when it is defined. -/
def newRangeFilter (params : FindByFieldParams) : RangeFilter :=
  { field := params.field,
    from_ := params.range.bind RangeParams.from_,
    to_ := params.range.bind RangeParams.to_,
    includeLower := params.range.bind RangeParams.includeLower,
    includeUpper := params.range.bind RangeParams.includeUpper }

/-- Embeds `joi.validate(params, findByFieldParamsSchema)` restricted to the rules
not already guaranteed by the typed model: `field` is required, and `range`
and `value` exclude each other (`.without`). -/
def validateFindByFieldParams (params : FindByFieldParams) : Option ErrV :=
  if params.field.isNone then
    some { message := "field is required", code := none, info := none }
  else if params.value.isSome ∧ params.range.isSome then
    some { message := "value and range are mutually exclusive", code := none, info := none }
  else none

/-- Embeds `EntityDatabase.prototype.findByField(params)`: schema validation failure
rejects (the error thrown by `newSearchRequest` inside the promise resolver
rejects the promise); otherwise the search request carries a `TermFilter` on
`params.field` when `params.value` is defined, and the range filter built by
`newRangeFilter` otherwise. -/
def findByField (db : EntityDatabase) (params : FindByFieldParams) : OpStep SearchReq :=
  match validateFindByFieldParams params with
  | some err => .reject err
  | none =>
    let request := newSearchRequest db params.toSearchParamsBase
    match params.value with
    | some v => .request { request with filter := some (.term params.field v) }
    | none => .request { request with filter := some (.range (newRangeFilter params)) }

/-- The response callback `findByField` wires to `doSearch`. -/
def findByFieldRespond : ESResult → Outcome := checkElasticsearchResult

/-- The defaults `findAll` starts from:
`{ sort : { field : "updatedOn", descending : true } }`. -/
def findAllDefaults : SearchParamsBase :=
  { timeout := none, returnFields := none, version := none, from_ := none,
    pageSize := none,
    sort := some { field := "updatedOn", descending := some true } }

/-- One field of a shallow `extend(target, source)` (node-extend): a defined
source value overwrites the target value, an `undefined` one is skipped. -/
def jsExtendField (target source : Option α) : Option α :=
  match source with
  | some v => some v
  | none => target

/-- Embeds `extend(searchParams, params)` (node-extend, shallow): every defined
top-level field of `params` overwrites the corresponding field of
`searchParams`; `undefined` fields are skipped. -/
def extendParams (target source : SearchParamsBase) : SearchParamsBase :=
  { timeout := jsExtendField target.timeout source.timeout,
    returnFields := jsExtendField target.returnFields source.returnFields,
    version := jsExtendField target.version source.version,
    from_ := jsExtendField target.from_ source.from_,
    pageSize := jsExtendField target.pageSize source.pageSize,
    sort := jsExtendField target.sort source.sort }

/-- Embeds `EntityDatabase.prototype.findAll(params)`: starts from `findAllDefaults`,
extends them with the caller-supplied params (when present), and issues a
search request with a `MatchAllQuery`. -/
def findAll (db : EntityDatabase) (params : Option SearchParamsBase) : OpStep SearchReq :=
  let searchParams :=
    match params with
    | some p => extendParams findAllDefaults p
    | none => findAllDefaults
  .request { newSearchRequest db searchParams with query := some .matchAll }

/-- The response callback `findAll` wires to `doSearch`. -/
def findAllRespond : ESResult → Outcome := checkElasticsearchResult

/-- Embeds `EntityDatabase.prototype.getCount()`: a `MatchAllQuery` count request
scoped to the configured index and type. -/
def getCount (db : EntityDatabase) : OpStep SearchReq :=
  .request { emptyRequest db with query := some .matchAll }

/-- The success callback `getCount` passes to `doCount` is `resolve`
itself. -/
def getCountRespond (result : ESResult) : Outcome := .resolved result

/-- Returns `true` when the outcome is a rejection. -/
def Outcome.isRejected : Outcome → Bool
  | .rejected _ => true
  | _ => false

/-- Extract the `_id` of a bulk `index`/`delete` header object. -/
def bulkHeaderId (op : String) (j : Json) : Option String :=
  ((jsonObjGet j op).bind (fun o => jsonObjGet o "_id")).bind jsonAsStr

/-- Extract the `id` field of a serialized entity object. -/
def entityJsonId (j : Json) : Option String :=
  (jsonObjGet j "id").bind jsonAsStr

theorem stringFoldlAppend (l : List String) (a : String) :
    l.foldl (· ++ ·) a = a ++ String.join l := by
  induction l generalizing a with
  | nil => simp [String.join]
  | cons s l ih =>
    rw [List.foldl_cons, ih]
    have h : String.join (s :: l) = s ++ String.join l := by
      show List.foldl (· ++ ·) "" (s :: l) = _
      rw [List.foldl_cons, ih]
      simp
    rw [h, String.append_assoc]

theorem stringJoin_cons (s : String) (l : List String) :
    String.join (s :: l) = s ++ String.join l := by
  show List.foldl (· ++ ·) "" (s :: l) = _
  rw [List.foldl_cons, stringFoldlAppend]
  simp

theorem payloadFoldl (g : α → String) (es : List α) (a : String) :
    es.foldl (fun payload e => payload ++ g e) a = a ++ String.join (es.map g) := by
  induction es generalizing a with
  | nil => simp [String.join]
  | cons e es ih => rw [List.foldl_cons, ih, List.map_cons, stringJoin_cons, String.append_assoc]

theorem createEntitiesPayloadAux (db : EntityDatabase) (ctor : RawEntity → Entity)
    (es : List RawEntity) (a : String) :
    es.foldl (fun payload entity =>
        payload ++ createEntityHeaderLine db entity ++ "\n"
          ++ createEntityBodyLine ctor entity ++ "\n") a =
      a ++ String.join ((createEntitiesLines db ctor es).map (fun line => line ++ "\n")) := by
  induction es generalizing a with
  | nil => simp [createEntitiesLines, String.join]
  | cons e es ih =>
    rw [List.foldl_cons, ih]
    simp [createEntitiesLines, stringJoin_cons, String.append_assoc]

theorem createEntitiesPayload_eq_join (db : EntityDatabase) (ctor : RawEntity → Entity)
    (es : List RawEntity) :
    createEntitiesPayload db ctor es =
      String.join ((createEntitiesLines db ctor es).map (fun line => line ++ "\n")) := by
  unfold createEntitiesPayload
  rw [createEntitiesPayloadAux]
  simp

theorem deleteEntitiesPayloadAux (db : EntityDatabase) (ids : List String) (a : String) :
    ids.foldl (fun payload id => payload ++ deleteEntityLine db id ++ "\n") a =
      a ++ String.join (ids.map (fun id => deleteEntityLine db id ++ "\n")) := by
  induction ids generalizing a with
  | nil => simp [String.join]
  | cons id ids ih =>
    rw [List.foldl_cons, ih]
    simp [stringJoin_cons, String.append_assoc]

theorem deleteEntitiesPayload_eq_join (db : EntityDatabase) (ids : List String) :
    deleteEntitiesPayload db ids =
      String.join (ids.map (fun id => deleteEntityLine db id ++ "\n")) := by
  unfold deleteEntitiesPayload
  rw [deleteEntitiesPayloadAux]
  simp

theorem asStrings_map_str (ids : List String) : asStrings (ids.map .str) = some ids := by
  induction ids with
  | nil => rfl
  | cons s ids ih => simp [asStrings, ih]

theorem asStrings_none_of_any_nonstr (xs : List JsVal)
    (h : xs.any (fun v => !v.isStr) = true) : asStrings xs = none := by
  induction xs with
  | nil => cases h
  | cons v xs ih =>
    cases v with
    | str s =>
      have h2 : xs.any (fun v => !v.isStr) = true := by
        rw [List.any_cons] at h
        simp only [JsVal.isStr, Bool.not_true, Bool.false_or] at h
        exact h
      simp [asStrings, ih h2]
    | num n => rfl
    | boolV b => rfl
    | nullV => rfl
    | undef => rfl
    | objV => rfl

/-- A sample configured database handle used by witnesses. -/
def dbX : EntityDatabase :=
  { index := "entitydatabasespec", type := some "entitydatabasetestdoc" }

/-- A sample entity used by witnesses. -/
def entX : Entity :=
  { id := "e1", _entityType := none, createdOn := 1, updatedOn := 1,
    updatedBy := none, extra := [] }

/-- A sample caller-supplied constructor: keeps the raw id when present. -/
def ctorX : RawEntity → Except String Entity :=
  fun raw => .ok { entX with id := raw.id.getD "generated" }

/-- The total form of `ctorX` used by the bulk operations. -/
def ctorXT : RawEntity → Entity :=
  fun raw => { entX with id := raw.id.getD "generated" }

/-- A database handle with no configured type, as the part_001 variant
permits. -/
def dbNoType : EntityDatabase := { index := "entitydatabasespec", type := none }

/-- C8: `createEntities([])` and `deleteEntities([])` each resolve with no
value without issuing any store request (`OpStep.resolve none` settles the
promise with no request of any kind). -/
theorem createEntities_deleteEntities_empty_noop (db : EntityDatabase)
    (ctor : RawEntity → Entity) :
    createEntities db ctor (some []) = .resolve none ∧
    deleteEntities db (.arr []) = .resolve none :=
  ⟨rfl, rfl⟩

/-- C2: in the part_001 variant, calling `createEntity` on a handle with no
configured type with an entity whose constructed form has no `_entityType`
does reject the promise, but — the bug — still issues the create-only store
request (with an undefined document type), because the rejection is not
followed by a `return`. -/
theorem createEntityV1_rejects_but_still_issues :
    (createEntityV1 dbNoType ctorX (some { id := some "abc" })).rejected.isSome = true ∧
    (createEntityV1 dbNoType ctorX (some { id := some "abc" })).issued.isSome = true ∧
    ((createEntityV1 dbNoType ctorX (some { id := some "abc" })).issued.map DocWrite.type)
      = some none :=
  ⟨rfl, rfl, rfl⟩

theorem createEntitiesLines_length (db : EntityDatabase) (ctor : RawEntity → Entity)
    (es : List RawEntity) :
    (createEntitiesLines db ctor es).length = 2 * es.length := by
  unfold createEntitiesLines
  induction es with
  | nil => rfl
  | cons e es ih =>
    simp only [List.map_cons, List.flatten_cons, List.length_append, List.length_cons,
      List.length_nil] at ih ⊢
    omega

/-- C4: for non-empty inputs, `createEntities` submits one bulk request whose
payload is exactly the newline-terminated lines of `createEntitiesLines` —
two lines per entity in input order, the `{"index":{"_index","_type","_id"}}`
header (keyed by the raw entity id) followed by the serialized constructed
entity — and `deleteEntities` submits one bulk request of exactly one
newline-terminated `{"delete":{"_index","_type","_id"}}` header line per id,
with no body lines. -/
theorem bulk_payload_framing (db : EntityDatabase) (ctor : RawEntity → Entity)
    (es : List RawEntity) (ids : List String) (hes : es ≠ []) (hids : ids ≠ []) :
    createEntities db ctor (some es) =
      .request { path := "/" ++ db.index ++ "/" ++ jsConcatStr db.type ++ "/_bulk",
                 body := createEntitiesPayload db ctor es } ∧
    createEntitiesPayload db ctor es =
      String.join ((createEntitiesLines db ctor es).map (fun line => line ++ "\n")) ∧
    createEntitiesLines db ctor es =
      (es.map (fun e => [(bulkIndexHeader db.index db.type e.id).stringify,
                         (entityToJson (ctor e)).stringify])).flatten ∧
    (createEntitiesLines db ctor es).length = 2 * es.length ∧
    deleteEntities db (.arr (ids.map .str)) =
      .request { path := "/" ++ db.index ++ "/" ++ jsConcatStr db.type ++ "/_bulk",
                 body := deleteEntitiesPayload db ids } ∧
    deleteEntitiesPayload db ids =
      String.join (ids.map (fun id => (bulkDeleteHeader db.index db.type id).stringify ++ "\n")) := by
  refine ⟨?_, createEntitiesPayload_eq_join db ctor es, rfl,
    createEntitiesLines_length db ctor es, ?_, ?_⟩
  · match es with
    | [] => exact absurd rfl hes
    | e :: es => rfl
  · match ids with
    | [] => exact absurd rfl hids
    | id :: ids =>
      have h := asStrings_map_str (id :: ids)
      rw [List.map_cons] at h
      simp [deleteEntities, h]
  · rw [deleteEntitiesPayload_eq_join]
    rfl

/-- C4 witness: the framing theorem instantiated at one entity and one id. -/
theorem bulk_payload_framing_witness :
    createEntities dbX ctorXT (some [{ id := some "a1" }]) =
      .request { path := "/entitydatabasespec/entitydatabasetestdoc/_bulk",
                 body := "\x7b\"index\":\x7b\"_index\":\"entitydatabasespec\",\"_type\":\"entitydatabasetestdoc\",\"_id\":\"a1\"\x7d\x7d\n\x7b\"id\":\"a1\",\"createdOn\":1,\"updatedOn\":1\x7d\n" } ∧
    (createEntitiesLines dbX ctorXT [{ id := some "a1" }]).length = 2 * 1 ∧
    deleteEntities dbX (.arr [.str "d1"]) =
      .request { path := "/entitydatabasespec/entitydatabasetestdoc/_bulk",
                 body := "\x7b\"delete\":\x7b\"_index\":\"entitydatabasespec\",\"_type\":\"entitydatabasetestdoc\",\"_id\":\"d1\"\x7d\x7d\n" } := by
  have h := bulk_payload_framing dbX ctorXT [{ id := some "a1" }] ["d1"]
    (by decide) (by decide)
  have h5 := h.2.2.2.2.1
  simp only [List.map_cons, List.map_nil] at h5
  refine ⟨?_, h.2.2.2.1, ?_⟩
  · rw [h.1]; rfl
  · rw [h5]; rfl

/-- C10: inside any `createEntities` input, each entity contributes the
two-line block whose header `_id` is the raw input entity's `id` while the
body serializes the constructed entity; whenever the constructor changes (or
assigns) the identifier, the header `_id` differs from the id in the body. -/
theorem createEntities_header_uses_raw_id (db : EntityDatabase) (ctor : RawEntity → Entity)
    (es1 es2 : List RawEntity) (e : RawEntity) :
    createEntitiesLines db ctor (es1 ++ e :: es2) =
      createEntitiesLines db ctor es1
        ++ [(bulkIndexHeader db.index db.type e.id).stringify,
            (entityToJson (ctor e)).stringify]
        ++ createEntitiesLines db ctor es2 ∧
    bulkHeaderId "index" (bulkIndexHeader db.index db.type e.id) = e.id ∧
    entityJsonId (entityToJson (ctor e)) = some (ctor e).id ∧
    (∀ s, e.id = some s → (ctor e).id ≠ s →
      bulkHeaderId "index" (bulkIndexHeader db.index db.type e.id) ≠
        entityJsonId (entityToJson (ctor e))) := by
  have hhead : bulkHeaderId "index" (bulkIndexHeader db.index db.type e.id) = e.id := by
    cases db.type <;> cases e.id <;> rfl
  have hbody : entityJsonId (entityToJson (ctor e)) = some (ctor e).id := rfl
  refine ⟨?_, hhead, hbody, ?_⟩
  · unfold createEntitiesLines createEntityHeaderLine createEntityBodyLine
    simp [List.map_append]
  · intro s hs hne
    rw [hhead, hbody, hs]
    intro hc
    exact hne (Option.some.inj hc).symm

/-- A constructor that assigns a fresh identifier, ignoring the raw id. -/
def ctorRename : RawEntity → Entity :=
  fun _ => { entX with id := "renamed" }

/-- C10 witness: with a constructor that renames the entity, the bulk header
id (the raw id) differs from the id serialized in the body line. -/
theorem createEntities_header_uses_raw_id_witness :
    bulkHeaderId "index" (bulkIndexHeader dbX.index dbX.type (some "orig")) ≠
      entityJsonId (entityToJson (ctorRename { id := some "orig" })) :=
  (createEntities_header_uses_raw_id dbX ctorRename [] [] { id := some "orig" }).2.2.2
    "orig" rfl (by decide)

/-- C1: every `setEntity` call that passes parameter validation and entity
construction issues exactly one write whose `version` condition equals
`params.version` (present iff a version was supplied) and whose `opType` is
unset (plain index, i.e. replace-or-create); and any store response carrying
an error is turned by the wired `checkElasticsearchResult` callback into a
rejection whose code is the response's `status` (409 on a version
conflict). -/
theorem setEntity_version_conditioning (db : EntityDatabase)
    (ctor : RawEntity → Except String Entity) (now : Nat) (params : SetEntityParams)
    (raw : RawEntity) (ent : Entity)
    (hval : validateUpdateEntityParams params = none)
    (hent : params.entity = some raw) (hctor : ctor raw = .ok ent) :
    setEntity db ctor now params =
      .request { index := db.index,
                 type := jsOrStr (ent.updated params.updatedBy now)._entityType db.type,
                 id := (ent.updated params.updatedBy now).id,
                 opType := none, refresh := none,
                 source := ent.updated params.updatedBy now,
                 version := params.version } ∧
    (∀ result m, result.error = some m → m ≠ "" →
      setEntityRespond result =
        .rejected { message := m, code := result.status.map .num, info := none }) := by
  constructor
  · have hvcase : (match params.version with
        | some v => if v ≠ 0 then some v else none
        | none => none) = params.version := by
      cases hv : params.version with
      | none => rfl
      | some v =>
        have hne : v ≠ 0 := by
          unfold validateUpdateEntityParams at hval
          rw [hent, hv] at hval
          simp only [Option.isNone_some, Bool.false_eq_true, if_false] at hval
          intro h0
          rw [h0] at hval
          simp at hval
        simp [hne]
    unfold setEntity
    rw [hval, hent]
    simp only [hctor, hvcase]
  · intro result m hm hne
    unfold setEntityRespond checkElasticsearchResult
    rw [hm]
    simp [hne]

/-- C1 witness: a supplied version 2 is carried as the write condition, and a
409-conflict response is rejected with code 409. -/
theorem setEntity_version_conditioning_witness :
    setEntity dbX ctorX 7 { entity := some { id := some "e1" }, version := some 2, updatedBy := none } =
      .request { index := "entitydatabasespec", type := some "entitydatabasetestdoc",
                 id := "e1", opType := none, refresh := none,
                 source := { id := "e1", _entityType := none, createdOn := 1, updatedOn := 7,
                             updatedBy := none, extra := [] },
                 version := some 2 } ∧
    setEntityRespond { error := some "VersionConflictEngineException", status := some 409,
                       code := none, exists_ := none } =
      .rejected { message := "VersionConflictEngineException", code := some (.num 409),
                  info := none } := by
  have h := setEntity_version_conditioning dbX ctorX 7
    { entity := some { id := some "e1" }, version := some 2, updatedBy := none }
    { id := some "e1" } { entX with id := "e1" } rfl rfl rfl
  exact ⟨by rw [h.1]; rfl, h.2 _ "VersionConflictEngineException" rfl (by decide)⟩

/-- C3 counterexample: `deleteEntity` wires `resolve` (not
`checkElasticsearchResult`) as the success callback, so a store response that
carries an error indication resolves the promise instead of rejecting it. -/
theorem deleteEntityRespond_resolves_error :
    deleteEntityRespond { error := some "SearchPhaseExecutionException", status := some 500,
                          code := none, exists_ := none } =
      .resolved { error := some "SearchPhaseExecutionException", status := some 500,
                  code := none, exists_ := none } ∧
    (deleteEntityRespond { error := some "SearchPhaseExecutionException", status := some 500,
                           code := none, exists_ := none }).isRejected = false :=
  ⟨rfl, rfl⟩

/-- C3 amended: on a store response with a (truthy) error indication, the
operations wired through `checkElasticsearchResult` — create, set, find-by-
field, find-all — reject with the normalized message/status error, while
`deleteEntity`, `getCount`, and the bulk/multi-get operations resolve the raw
response unchanged, leaving error inspection to the caller. -/
theorem respond_error_classification (result : ESResult) (m : String)
    (hm : result.error = some m) (hne : m ≠ "") :
    createEntityRespond result =
      .rejected { message := m, code := result.status.map .num, info := none } ∧
    setEntityRespond result =
      .rejected { message := m, code := result.status.map .num, info := none } ∧
    findByFieldRespond result =
      .rejected { message := m, code := result.status.map .num, info := none } ∧
    findAllRespond result =
      .rejected { message := m, code := result.status.map .num, info := none } ∧
    deleteEntityRespond result = .resolved result ∧
    getCountRespond result = .resolved result ∧
    createEntitiesRespond result = .resolved result ∧
    deleteEntitiesRespond result = .resolved result ∧
    getEntitiesRespond result = .resolved result := by
  have hc : checkElasticsearchResult result =
      .rejected { message := m, code := result.status.map .num, info := none } := by
    unfold checkElasticsearchResult
    rw [hm]
    simp [hne]
  exact ⟨hc, hc, hc, hc, rfl, rfl, rfl, rfl, rfl⟩

/-- C3 amended witness: the classification at a concrete 500 response. -/
theorem respond_error_classification_witness :
    createEntityRespond { error := some "boom", status := some 500, code := none, exists_ := none } =
      .rejected { message := "boom", code := some (.num 500), info := none } ∧
    getCountRespond { error := some "boom", status := some 500, code := none, exists_ := none } =
      .resolved { error := some "boom", status := some 500, code := none, exists_ := none } := by
  have h := respond_error_classification
    { error := some "boom", status := some 500, code := none, exists_ := none } "boom"
    rfl (by decide)
  exact ⟨h.1, h.2.2.2.2.2.1⟩

/-- C5 counterexample: on a store response that reports an error with its
status field (as the store's error bodies do), `getEntity` rejects with a
code copied from the absent `code` field — not from `status` — so the
rejection does not carry the store's status code 404. -/
theorem getEntityRespond_error_ignores_status :
    getEntityRespond { error := some "IndexMissingException", status := some 404,
                       code := none, exists_ := none } =
      .rejected { message := "IndexMissingException", code := none, info := none } ∧
    ({ error := some "IndexMissingException", status := some 404,
       code := none, exists_ := none } : ESResult).status = some 404 ∧
    (none : Option ErrCode) ≠ some (.num 404) :=
  ⟨rfl, rfl, by decide⟩

/-- C5 amended: a non-string id rejects before any request; a string id
issues the fetch; a response with `exists = true` resolves in full; one with
`exists = false` rejects with code 404 carrying the raw response as `info`;
and a response reporting an error (no `exists` flag) rejects with the store's
message and a code copied from the response's `code` field (its `status`
field is not consulted). -/
theorem getEntity_behavior (db : EntityDatabase) (id : JsVal) (result : ESResult) :
    (JsVal.isStr id = false → (getEntity db id).isReject = true) ∧
    (∀ s, id = .str s →
      getEntity db id = .request { index := db.index, type := db.type, id := s }) ∧
    (result.exists_ = some true → getEntityRespond result = .resolved result) ∧
    (result.exists_ = some false →
      getEntityRespond result =
        .rejected { message := "Entity does not exist", code := some (.num 404),
                    info := some result }) ∧
    (result.exists_ = none → ∀ m, result.error = some m → m ≠ "" →
      getEntityRespond result =
        .rejected { message := m, code := result.code.map .num, info := none }) := by
  refine ⟨?_, ?_, ?_, ?_, ?_⟩
  · intro h
    cases id <;> simp_all [JsVal.isStr, getEntity, OpStep.isReject]
  · intro s hs
    rw [hs]
    rfl
  · intro h
    unfold getEntityRespond
    rw [h]
    rfl
  · intro h
    unfold getEntityRespond
    rw [h]
    simp
  · intro hex m hm hne
    unfold getEntityRespond
    rw [hex, hm]
    simp [hne]

/-- C5 amended witness: instantiated at a non-string id, a found document,
a missing document, and an error response carrying only a status. -/
theorem getEntity_behavior_witness :
    (getEntity dbX (.num 3)).isReject = true ∧
    getEntity dbX (.str "e1") =
      .request { index := "entitydatabasespec", type := some "entitydatabasetestdoc", id := "e1" } ∧
    getEntityRespond { error := none, status := none, code := none, exists_ := some false } =
      .rejected { message := "Entity does not exist", code := some (.num 404),
                  info := some { error := none, status := none, code := none, exists_ := some false } } ∧
    getEntityRespond { error := some "IndexMissingException", status := some 404,
                       code := some 404, exists_ := none } =
      .rejected { message := "IndexMissingException", code := some (.num 404), info := none } := by
  refine ⟨?_, ?_, ?_, ?_⟩
  · exact (getEntity_behavior dbX (.num 3)
      { error := none, status := none, code := none, exists_ := none }).1 rfl
  · have h := (getEntity_behavior dbX (.str "e1")
      { error := none, status := none, code := none, exists_ := none }).2.1 "e1" rfl
    rw [h]
    rfl
  · exact (getEntity_behavior dbX (.str "e1")
      { error := none, status := none, code := none, exists_ := some false }).2.2.2.1 rfl
  · exact (getEntity_behavior dbX (.str "e1")
      { error := some "IndexMissingException", status := some 404,
        code := some 404, exists_ := none }).2.2.2.2 rfl "IndexMissingException" rfl (by decide)

/-- C6: params with both `value` and `range` set are rejected by the schema
before any request; with a defined `value` the issued request carries a term
filter on `field`; otherwise it carries the range filter built from
`params.range`, in which an absent `range` leaves every bound and flag unset,
and an unset inclusivity flag yields an inclusive effective edge. -/
theorem findByField_filter_selection (db : EntityDatabase) (params : FindByFieldParams) :
    (params.value.isSome = true → params.range.isSome = true →
      (findByField db params).isReject = true) ∧
    (validateFindByFieldParams params = none → ∀ v, params.value = some v →
      findByField db params =
        .request { newSearchRequest db params.toSearchParamsBase with
                   filter := some (.term params.field v) }) ∧
    (validateFindByFieldParams params = none → params.value = none →
      findByField db params =
        .request { newSearchRequest db params.toSearchParamsBase with
                   filter := some (.range (newRangeFilter params)) }) ∧
    (params.range = none →
      newRangeFilter params =
        { field := params.field, from_ := none, to_ := none,
          includeLower := none, includeUpper := none }) ∧
    (params.range.bind RangeParams.includeLower = none →
      (newRangeFilter params).effectiveIncludeLower = true) ∧
    (params.range.bind RangeParams.includeUpper = none →
      (newRangeFilter params).effectiveIncludeUpper = true) := by
  refine ⟨?_, ?_, ?_, ?_, ?_, ?_⟩
  · intro hv hr
    unfold findByField validateFindByFieldParams
    cases hf : params.field.isNone <;>
      simp [OpStep.isReject, hf, Option.isSome_iff_exists.mp hv,
        Option.isSome_iff_exists.mp hr, hv, hr]
  · intro hval v hv
    unfold findByField
    rw [hval, hv]
  · intro hval hv
    unfold findByField
    rw [hval, hv]
  · intro hr
    unfold newRangeFilter
    rw [hr]
    rfl
  · intro h
    unfold RangeFilter.effectiveIncludeLower newRangeFilter
    rw [h]
    rfl
  · intro h
    unfold RangeFilter.effectiveIncludeUpper newRangeFilter
    rw [h]
    rfl

/-- C6 witness: the selection theorem at a both-set params (rejected), a
value params (term filter), and a range-free params (unbounded inclusive
range filter). -/
theorem findByField_filter_selection_witness :
    (findByField dbX
      { timeout := none, returnFields := none, version := none, from_ := none,
        pageSize := none, sort := none, field := some "name",
        range := some { from_ := none, to_ := none, includeLower := none, includeUpper := none },
        value := some (.str "x") }).isReject = true ∧
    findByField dbX
      { timeout := none, returnFields := none, version := none, from_ := none,
        pageSize := none, sort := none, field := some "name",
        range := none, value := some (.str "x") } =
      .request { indices := "entitydatabasespec", types := some "entitydatabasetestdoc",
                 sort := none, timeout := none, fields := none, version := none,
                 from_ := none, size := none, query := none,
                 filter := some (.term (some "name") (.str "x")) } ∧
    findByField dbX
      { timeout := none, returnFields := none, version := none, from_ := none,
        pageSize := none, sort := none, field := some "name",
        range := none, value := none } =
      .request { indices := "entitydatabasespec", types := some "entitydatabasetestdoc",
                 sort := none, timeout := none, fields := none, version := none,
                 from_ := none, size := none, query := none,
                 filter := some (.range { field := some "name", from_ := none, to_ := none,
                                          includeLower := none, includeUpper := none }) } := by
  refine ⟨?_, ?_, ?_⟩
  · exact (findByField_filter_selection dbX _).1 rfl rfl
  · have h := (findByField_filter_selection dbX
      { timeout := none, returnFields := none, version := none, from_ := none,
        pageSize := none, sort := none, field := some "name",
        range := none, value := some (.str "x") }).2.1 rfl (.str "x") rfl
    rw [h]
    rfl
  · have h := (findByField_filter_selection dbX
      { timeout := none, returnFields := none, version := none, from_ := none,
        pageSize := none, sort := none, field := some "name",
        range := none, value := none }).2.2.1 rfl rfl
    rw [h]
    rfl

/-- The search request `findAll` issues (it always issues exactly one). -/
def findAllRequest (db : EntityDatabase) (params : Option SearchParamsBase) : SearchReq :=
  match findAll db params with
  | .request r => r
  | _ => emptyRequest db

/-- C7: `findAll` always issues a match-everything search; with no params it
sorts by `updatedOn` descending; with params, every caller-supplied field
wins over the defaults field-by-field (the default sort applies exactly when
the caller supplies none). -/
theorem jsExtendField_none (o : Option α) : jsExtendField none o = o := by
  cases o <;> rfl

theorem findAll_matchall_merge (db : EntityDatabase) (p : SearchParamsBase) :
    findAll db none = .request (findAllRequest db none) ∧
    findAll db (some p) = .request (findAllRequest db (some p)) ∧
    (findAllRequest db none).query = some .matchAll ∧
    (findAllRequest db none).sort = some ("updatedOn", "desc") ∧
    (findAllRequest db (some p)).query = some .matchAll ∧
    (p.sort = none → (findAllRequest db (some p)).sort = some ("updatedOn", "desc")) ∧
    (∀ s, p.sort = some s →
      (findAllRequest db (some p)).sort =
        some (s.field, getSortOrder (s.descending.getD false))) ∧
    (findAllRequest db (some p)).timeout = p.timeout ∧
    (findAllRequest db (some p)).fields = p.returnFields ∧
    (findAllRequest db (some p)).version = p.version ∧
    (findAllRequest db (some p)).from_ = p.from_ ∧
    (findAllRequest db (some p)).size = p.pageSize := by
  refine ⟨rfl, rfl, rfl, rfl, rfl, ?_, ?_, ?_, ?_, ?_, ?_, ?_⟩
  · intro hs
    simp [findAllRequest, findAll, extendParams, findAllDefaults, newSearchRequest,
      emptyRequest, jsExtendField, getSortOrder, hs]
  · intro s hs
    simp [findAllRequest, findAll, extendParams, findAllDefaults, newSearchRequest,
      emptyRequest, jsExtendField, hs]
  all_goals
    simp [findAllRequest, findAll, extendParams, findAllDefaults, newSearchRequest,
      emptyRequest, jsExtendField_none]

/-- A caller-supplied `findAll` parameter object used by the C7 witness:
pagination plus a sort with no `descending` flag. -/
def findAllParamsW : SearchParamsBase :=
  { timeout := none, returnFields := none, version := none,
    from_ := some 10, pageSize := some 20,
    sort := some { field := "createdOn", descending := none } }

/-- C7 witness: with no params the request sorts by `updatedOn` descending;
with a caller-supplied sort (no `descending` flag) the caller's field wins
and the order is ascending; caller pagination fields pass through. -/
theorem findAll_matchall_merge_witness :
    (findAllRequest dbX none).sort = some ("updatedOn", "desc") ∧
    (findAllRequest dbX (some findAllParamsW)).sort = some ("createdOn", "asc") ∧
    (findAllRequest dbX (some findAllParamsW)).from_ = some 10 ∧
    (findAllRequest dbX (some findAllParamsW)).query = some .matchAll := by
  have h := findAll_matchall_merge dbX findAllParamsW
  refine ⟨h.2.2.2.1, ?_, h.2.2.2.2.2.2.2.2.2.2.1, h.2.2.2.2.1⟩
  have h7 := h.2.2.2.2.2.2.1 { field := "createdOn", descending := none } rfl
  rw [h7]
  rfl

/-- C9 counterexample: `deleteEntities([])` resolves as a no-op (the empty
check precedes validation), so an empty id array is not rejected. -/
theorem deleteEntities_empty_not_rejected :
    deleteEntities dbX (.arr []) = .resolve none ∧
    (deleteEntities dbX (.arr [])).isReject = false :=
  ⟨rfl, rfl⟩

/-- Returns `true` on an ids argument the id-array schema rejects: `undefined`, a
non-array, or an array with a non-string entry. -/
def badIdsArg : JsArg → Bool
  | .undef => true
  | .nonArray => true
  | .arr xs => xs.any (fun v => !v.isStr)

/-- C9 amended: `getEntities` and `deleteEntities` reject before any request
whenever `ids` is undefined, not an array, or contains a non-string entry;
an empty array, however, is not rejected — `deleteEntities([])` resolves as
a no-op and `getEntities([])` passes id-array validation and issues its
request. -/
theorem getEntities_deleteEntities_validation (db : EntityDatabase) (ids : JsArg)
    (h : badIdsArg ids = true) :
    (getEntities db ids).isReject = true ∧
    (deleteEntities db ids).isReject = true ∧
    deleteEntities db (.arr []) = .resolve none ∧
    (getEntities db (.arr [])).isReject = false := by
  refine ⟨?_, ?_, rfl, rfl⟩
  · cases ids with
    | undef => rfl
    | nonArray => rfl
    | arr xs =>
      have hn := asStrings_none_of_any_nonstr xs h
      simp [getEntities, validateIdsArray, hn, OpStep.isReject]
  · cases ids with
    | undef => rfl
    | nonArray => rfl
    | arr xs =>
      have hn := asStrings_none_of_any_nonstr xs h
      cases xs with
      | nil => simp [badIdsArg] at h
      | cons v vs => simp [deleteEntities, hn, OpStep.isReject]

/-- C9 amended witness: an array containing a number is rejected by both
operations. -/
theorem getEntities_deleteEntities_validation_witness :
    (getEntities dbX (.arr [.num 1])).isReject = true ∧
    (deleteEntities dbX (.arr [.num 1])).isReject = true ∧
    deleteEntities dbX (.arr []) = .resolve none ∧
    (getEntities dbX (.arr [])).isReject = false :=
  getEntities_deleteEntities_validation dbX (.arr [.num 1]) rfl
